import Mathlib

/-
  Verification of the agent-orchestration demo repository
  (OpenAI Agents SDK concepts with a Groq backend).

  The repository consists of demo scripts that declare Agents, Tools and
  Guardrails and hand them to the SDK Runner.  The pure computations of the
  scripts (tool bodies, JSON extraction, configuration logic, the handoff
  graph) are embedded below directly from the sources; the parts of the
  Execution Loop that live in the external SDK are modelled from the
  specification and are marked as such in their doc comments.

  Numeric code that Python performs on floats is modelled over the exact
  rationals; all control flow and thresholds are preserved.
-/

/-! ## Guardrails (src/7_guardrails.py) -/

/-- Pydantic model `OffTopicCheck` from src/7_guardrails.py: the structured
decision produced by the guardrail classifier agent. -/
structure OffTopicCheck where
  is_off_topic : Bool
  reasoning : String
deriving DecidableEq, Repr

/-- `GuardrailFunctionOutput` as used in src/7_guardrails.py: the decision a
guardrail function returns to the SDK. -/
structure GuardrailFunctionOutput where
  output_info : OffTopicCheck
  tripwire_triggered : Bool
deriving DecidableEq, Repr

/-- `block_harmful_input` from src/7_guardrails.py, as a function of the
structured decision returned by the classifier agent run (the LLM call
`Runner.run(guardrail_classifier, ...)` is external; its result is the
argument here).  The function returns the decision as `output_info` and sets
`tripwire_triggered` to the classifier field `is_off_topic`. -/
def block_harmful_input (decision : OffTopicCheck) : GuardrailFunctionOutput :=
  { output_info := decision, tripwire_triggered := decision.is_off_topic }

/-- Modelled from the spec: the Guardrail Evaluator combination step (spec
section 4.4), which lives in the agents SDK and not in this repository's
sources.  The Evaluator combines the decisions of one phase with logical OR
on the block flag: any single triggered tripwire blocks the phase. -/
def phase_blocked (decisions : List GuardrailFunctionOutput) : Bool :=
  decisions.any (fun d => d.tripwire_triggered)

/-- Run status of one run, as in spec section 4.2. -/
inductive RunStatus where
  | Running
  | Completed
  | Blocked
  | Failed
deriving DecidableEq, Repr

/-- Outcome of the entry step of one turn: the terminal status, how many
model calls the protected agent issued, and its final output if any. -/
structure TurnOutcome where
  status : RunStatus
  model_calls : Nat
  final_output : Option String
deriving DecidableEq, Repr

/-- Modelled from the spec: the Execution Loop entry step (spec section 4.2,
step 1), which lives in the agents SDK and not in this repository's sources.
If the active agent declares input guardrails, they are evaluated against
the caller's input before any model call; if any decision is a block the run
transitions to Blocked and the protected agent's model is never invoked,
otherwise the model is called once and the run completes. -/
def run_with_input_guardrails (guardrails : List (String → GuardrailFunctionOutput))
    (model : String → String) (input : String) : TurnOutcome :=
  if (guardrails.map (fun g => g input)).any (fun d => d.tripwire_triggered) then
    { status := RunStatus.Blocked, model_calls := 0, final_output := none }
  else
    { status := RunStatus.Completed, model_calls := 1, final_output := some (model input) }

/-- The input guardrail list of `study_assistant` from src/7_guardrails.py:
`input_guardrails=[block_harmful_input]`, where the guardrail runs the
classifier agent on the input and feeds its decision to
`block_harmful_input`. -/
def study_assistant_input_guardrails (classifier : String → OffTopicCheck) :
    List (String → GuardrailFunctionOutput) :=
  [fun input => block_harmful_input (classifier input)]

/-! ## Handoff graph (src/4_handoffs.py and src/6_triage_agent.py) -/

/-- The agents declared across the repository's demo files, named after the
Python variables that hold them. -/
inductive AgentName where
  | explainer_agent
  | joke_agent
  | weather_assistant
  | health_assistant
  | english_agent
  | urdu_agent
  | router_agent
  | movie_extractor
  | career_agent
  | finance_agent
  | tech_agent
  | triage_agent
  | guardrail_classifier
  | study_assistant
deriving DecidableEq, Repr, Fintype

/-- The `handoffs=[...]` set declared by each agent: the Language Router
(src/4_handoffs.py) hands off to the English and Urdu specialists, the
Triage Agent (src/6_triage_agent.py) to the Career, Finance and Tech
specialists; every other agent in the repository declares no handoffs. -/
def handoffs : AgentName → List AgentName
  | AgentName.router_agent =>
      [AgentName.english_agent, AgentName.urdu_agent]
  | AgentName.triage_agent =>
      [AgentName.career_agent, AgentName.finance_agent, AgentName.tech_agent]
  | _ => []

/-- One agent-to-agent handoff step: `handoff_step a b` holds when `b` is in
the handoff set of `a`. -/
def handoff_step (a b : AgentName) : Prop := b ∈ handoffs a

instance : DecidableRel handoff_step := fun a b =>
  inferInstanceAs (Decidable (b ∈ handoffs a))

/-! ## Weather tool (src/3_tools.py and src/2_tools.py) -/

/-- The `fake_weather_data` dictionary from `get_weather` (identical in
src/3_tools.py and src/2_tools.py). -/
def fake_weather_data : List (String × String) :=
  [("karachi",   "🌤  29°C, Partly Cloudy, Humidity: 72%"),
   ("lahore",    "☀️  24°C, Sunny, Humidity: 45%"),
   ("islamabad", "🌧  18°C, Rainy, Humidity: 88%"),
   ("london",    "🌥  12°C, Overcast, Humidity: 80%"),
   ("new york",  "❄️   3°C, Snowy, Humidity: 60%")]

/-- Python `dict.get(key, default)` over an association list whose keys are
distinct, as `fake_weather_data`'s are. -/
def dict_get (d : List (String × String)) (key dflt : String) : String :=
  match d.find? (fun p => p.1 == key) with
  | some p => p.2
  | none => dflt

/-- Python `s.lower()`: lowercase every character.  Python lowercasing
agrees with `Char.toLower` on the ASCII inputs the dictionary keys use. -/
def py_lower (s : String) : String := String.mk (s.data.map Char.toLower)

/-- Python `s.strip()`: remove leading and trailing whitespace. -/
def py_strip (s : String) : String :=
  String.mk
    (((s.data.dropWhile Char.isWhitespace).reverse.dropWhile Char.isWhitespace).reverse)

/-- The key normalization `city.lower().strip()` performed by
`get_weather`. -/
def normalize_city (city : String) : String := py_strip (py_lower city)

/-- `get_weather` from src/3_tools.py (the same function appears in
src/2_tools.py): looks the normalized city up in `fake_weather_data` and
falls back to a not-available message interpolating the original
argument. -/
def get_weather (city : String) : String :=
  dict_get fake_weather_data (normalize_city city)
    ("Weather data for '" ++ city ++ "' not available.")

/-! ## BMI tool (src/3_tools.py) -/

/-- Banker's rounding (round half to even) of a rational to an integer: the
rounding rule Python's built-in `round` applies.  Python rounds the exact
binary-float value; here the ideal rational value is rounded. -/
def bankers_round (x : ℚ) : ℤ :=
  let f : ℤ := ⌊x⌋
  let r : ℚ := x - f
  if r < 1/2 then f
  else if 1/2 < r then f + 1
  else if f % 2 = 0 then f else f + 1

/-- Python `round(x, 2)`: round to the nearest multiple of 1/100 with ties
to even. -/
def py_round2 (x : ℚ) : ℚ := (bankers_round (x * 100) : ℚ) / 100

/-- Decimal rendering of a rational that is a multiple of 1/100, matching
how Python prints the result of `round(x, 2)` inside an f-string: at least
one fractional digit, no trailing zero in the second place. -/
def fmt_two_dec (q : ℚ) : String :=
  let cents : ℤ := ⌊q * 100⌋
  let sign := if cents < 0 then "-" else ""
  let a := cents.natAbs
  let i := a / 100
  let f := a % 100
  let frac :=
    if f = 0 then ".0"
    else if f % 10 = 0 then "." ++ toString (f / 10)
    else "." ++ (if f < 10 then "0" else "") ++ toString f
  sign ++ toString i ++ frac

/-- The `if/elif` classification chain of `calculate_bmi` in src/3_tools.py,
applied to the rounded BMI value. -/
def bmi_category (bmi : ℚ) : String :=
  if bmi < 18.5 then "Underweight"
  else if bmi < 25 then "Normal weight ✅"
  else if bmi < 30 then "Overweight ⚠️ "
  else "Obese ❗"

/-- `calculate_bmi` from src/3_tools.py, with Python float arithmetic
modelled over the exact rationals: guard on non-positive height, compute
weight over height squared, round to two decimals, classify, and format. -/
def calculate_bmi (weight_kg height_m : ℚ) : String :=
  if height_m ≤ 0 then
    "Error: Height must be greater than zero."
  else
    let bmi := py_round2 (weight_kg / height_m ^ 2)
    "BMI = " ++ fmt_two_dec bmi ++ "  →  " ++ bmi_category bmi

/-! ## Shared configuration (src/groq_setup.py) -/

/-- The base URL constant `GROQ_BASE_URL` from src/groq_setup.py. -/
def GROQ_BASE_URL : String := "https://api.groq.com/openai/v1"

/-- The model constant `MODEL` from src/groq_setup.py. -/
def MODEL : String := "llama-3.3-70b-versatile"

/-- The error message raised by src/groq_setup.py when the key is absent. -/
def GROQ_KEY_ERROR : String :=
  "\n[ERROR] GROQ_API_KEY not found!\n" ++
  "Please open the .env file and paste your Groq API key.\n" ++
  "Get one free at: https://console.groq.com\n"

/-- The SDK-wide configuration that importing src/groq_setup.py installs:
the registered default client and the two mode switches. -/
structure GroqConfig where
  client_api_key : String
  client_base_url : String
  default_api : String
  tracing_disabled : Bool
deriving DecidableEq, Repr

/-- Module initialization of src/groq_setup.py as a function of the process
environment (`os.getenv`, after `load_dotenv`): `if not GROQ_API_KEY` raises
`EnvironmentError` when the variable is unset (`None`) or empty (falsy
string); otherwise the Groq client is built and registered as the default,
the `chat_completions` API is selected, and tracing is disabled. -/
def groq_setup_import (env : String → Option String) : Except String GroqConfig :=
  match env "GROQ_API_KEY" with
  | none => Except.error GROQ_KEY_ERROR
  | some key =>
      if key = "" then Except.error GROQ_KEY_ERROR
      else Except.ok
        { client_api_key := key
          client_base_url := GROQ_BASE_URL
          default_api := "chat_completions"
          tracing_disabled := true }

/-! ## Streaming (src/2_runner.py, loop semantics from the spec) -/

/-- One event of a streamed run as consumed by `demo_streamed_runner` in
src/2_runner.py: either a raw-response event carrying a partial-content text
delta, or any other event kind (which the loop ignores). -/
inductive StreamEvent where
  | textDelta (s : String)
  | other
deriving DecidableEq, Repr

/-- Modelled from the spec: the relay side of the streaming contract (spec
section 5), implemented by the SDK Runner and consumed in
src/2_runner.py.  The text deltas of the event sequence are relayed to the
caller one by one, in arrival order. -/
def relay_deltas : List StreamEvent → List String
  | [] => []
  | StreamEvent.textDelta s :: rest => s :: relay_deltas rest
  | StreamEvent.other :: rest => relay_deltas rest

/-- Modelled from the spec: the accumulation side of the streaming contract
(spec section 5), implemented by the SDK Runner.  While relaying, the loop
separately accumulates the full final content by appending each partial
text delta to the content accumulated so far. -/
def accumulate_content (events : List StreamEvent) : String :=
  events.foldl
    (fun acc ev =>
      match ev with
      | StreamEvent.textDelta s => acc ++ s
      | StreamEvent.other => acc)
    ""

/-! ## Structured output (src/4_structured_output.py) -/

/-- The opening-brace character searched for by `raw_output.find` in
src/4_structured_output.py. -/
def lbrace : Char := Char.ofNat 123

/-- The closing-brace character searched for by `raw_output.rfind`. -/
def rbrace : Char := Char.ofNat 125

/-- Python `s.find(c)`: index of the first occurrence of the character, or
-1 when absent. -/
def py_find (s : String) (c : Char) : Int :=
  match s.data.findIdx? (fun x => x == c) with
  | some i => (i : Int)
  | none => -1

/-- Python `s.rfind(c)`: index of the last occurrence of the character, or
-1 when absent. -/
def py_rfind (s : String) (c : Char) : Int :=
  match s.data.reverse.findIdx? (fun x => x == c) with
  | some j => (s.length : Int) - 1 - (j : Int)
  | none => -1

/-- Python slicing `s[a:b]` for non-negative bounds: characters from index
`a` (inclusive) to `b` (exclusive), clamped to the string, empty when
`b ≤ a`. -/
def py_slice (s : String) (a b : Nat) : String :=
  String.mk ((s.data.drop a).take (b - a))

/-- The JSON extraction step of `main` in src/4_structured_output.py:
`start_idx = raw_output.find("\x7b")`, `end_idx = raw_output.rfind("\x7d") + 1`,
slice when both indices differ from -1, otherwise keep the whole text.
Since `end_idx` is one more than an `rfind` result it is never -1, so the
fallback fires exactly when the text has no opening brace. -/
def extract_json (raw_output : String) : String :=
  let start_idx := py_find raw_output lbrace
  let end_idx := py_rfind raw_output rbrace + 1
  if start_idx ≠ -1 ∧ end_idx ≠ -1 then
    py_slice raw_output start_idx.toNat end_idx.toNat
  else
    raw_output

/-- Parsed JSON values, as produced by parsing the extracted payload.
Numbers keep whether they were written as integers (no fraction or
exponent), which pydantic distinguishes when validating an `int` field. -/
inductive Json where
  | jnull
  | jbool (b : Bool)
  | jint (n : ℤ)
  | jnum (q : ℚ)
  | jstr (s : String)
  | jarr (xs : List Json)
  | jobj (fields : List (String × Json))
deriving Repr

/-- The pydantic model `MovieInfo` from src/4_structured_output.py; the
`float` rating is modelled as a rational. -/
structure MovieInfo where
  title : String
  director : String
  year : ℤ
  genre : List String
  main_actors : List String
  plot_summary : String
  rating_out_of_10 : ℚ
deriving Repr

/-- Field lookup in a parsed JSON object.  Python's `json.loads` keeps the
last value of a duplicated key, hence the reversed search. -/
def jlookup (fields : List (String × Json)) (key : String) : Option Json :=
  (fields.reverse.find? (fun p => p.1 == key)).map (fun p => p.2)

/-- Pydantic validation of a `str` field: the value must be a JSON
string. -/
def as_str : Json → Option String
  | Json.jstr s => some s
  | _ => none

/-- Value of a run of decimal digit characters. -/
def digits_val (l : List Char) : ℕ :=
  l.foldl (fun acc c => 10 * acc + (c.toNat - 48)) 0

/-- Unsigned decimal grammar of pydantic v2's lax numeric-string coercion:
a digit run, optionally with a decimal point and a fractional digit run (at
least one digit overall).  Exponent, underscore and infinity/NaN spellings
are outside the modelled grammar. -/
def parse_unsigned_decimal (l : List Char) : Option ℚ :=
  let intPart := l.takeWhile Char.isDigit
  let rest := l.dropWhile Char.isDigit
  match rest with
  | [] =>
      if intPart.isEmpty then none
      else some ((digits_val intPart : ℚ))
  | '.' :: frac =>
      if frac.all Char.isDigit && (!intPart.isEmpty || !frac.isEmpty) then
        some ((digits_val intPart : ℚ) +
          (digits_val frac : ℚ) / ((10 : ℚ) ^ frac.length))
      else none
  | _ => none

/-- Decimal-string reading as performed by pydantic v2's lax coercion of
JSON strings into numeric fields: surrounding whitespace is stripped and an
optional sign precedes the unsigned decimal form. -/
def parse_decimal (s : String) : Option ℚ :=
  match (py_strip s).data with
  | '+' :: rest => parse_unsigned_decimal rest
  | '-' :: rest => (parse_unsigned_decimal rest).map (fun q => -q)
  | l => parse_unsigned_decimal l

/-- Pydantic v2 (lax mode, as `model_validate_json` runs by default)
validation of an `int` field: a JSON integer, a JSON number with no
fractional part, or — lax string coercion — a JSON string whose decimal
value is integral (so "2010" and "2010.0" are accepted, "8.5" and
non-numeric strings are not).  Null and booleans are never coerced. -/
def as_int : Json → Option ℤ
  | Json.jint n => some n
  | Json.jnum q => if q.den = 1 then some q.num else none
  | Json.jstr s =>
      match parse_decimal s with
      | some q => if q.den = 1 then some q.num else none
      | none => none
  | _ => none

/-- Pydantic v2 (lax mode) validation of a `float` field: any JSON number,
or — lax string coercion — a JSON string in decimal form (so "8.5" is
accepted).  Null and booleans are never coerced. -/
def as_num : Json → Option ℚ
  | Json.jint n => some (n : ℚ)
  | Json.jnum q => some q
  | Json.jstr s => parse_decimal s
  | _ => none

/-- Pydantic validation of a `List[str]` field: a JSON array all of whose
elements are strings. -/
def as_str_list : Json → Option (List String)
  | Json.jarr xs => xs.mapM as_str
  | _ => none

/-- The specific violation reported by a failed validation. -/
inductive Violation where
  | unparsable
  | notAnObject
  | missingField (name : String)
  | typeMismatch (name : String)
deriving DecidableEq, Repr

/-- The `OutputValidationError` of the structured-output path: the raw model
output text together with the specific violation. -/
structure OutputValidationError where
  raw_output : String
  violation : Violation
deriving DecidableEq, Repr

/-- Validation of one required field: absent is a missing-field violation,
present with the wrong shape is a type mismatch. -/
def require_field {α : Type} (fields : List (String × Json)) (name : String)
    (conv : Json → Option α) : Except Violation α :=
  match jlookup fields name with
  | none => Except.error (Violation.missingField name)
  | some v =>
      match conv v with
      | none => Except.error (Violation.typeMismatch name)
      | some a => Except.ok a

/-- `MovieInfo.model_validate` on a parsed JSON value: every required field
of the schema must be present with the right type; the result is a fully
populated `MovieInfo` or a violation, never a partial value. -/
def model_validate (j : Json) : Except Violation MovieInfo :=
  match j with
  | Json.jobj fields => do
      let title ← require_field fields "title" as_str
      let director ← require_field fields "director" as_str
      let year ← require_field fields "year" as_int
      let genre ← require_field fields "genre" as_str_list
      let main_actors ← require_field fields "main_actors" as_str_list
      let plot_summary ← require_field fields "plot_summary" as_str
      let rating ← require_field fields "rating_out_of_10" as_num
      Except.ok
        { title := title, director := director, year := year, genre := genre
          main_actors := main_actors, plot_summary := plot_summary
          rating_out_of_10 := rating }
  | _ => Except.error Violation.notAnObject

/-- `MovieInfo.model_validate_json` applied to the extracted payload, as a
function of the parse result of that payload (`none` when the payload is
not parsable JSON).  On any failure the error carries the raw output text
and the specific violation; there is no partial-success result. -/
def validate_output (raw_output : String) (parsed : Option Json) :
    Except OutputValidationError MovieInfo :=
  match parsed with
  | none => Except.error { raw_output := raw_output, violation := Violation.unparsable }
  | some j =>
      match model_validate j with
      | Except.error v => Except.error { raw_output := raw_output, violation := v }
      | Except.ok m => Except.ok m

/-! ## Theorems -/

/-- C1: for a run of an agent with input guardrails (in particular the Study
Assistant with `block_harmful_input`), the guardrails are evaluated against
the caller's input before any model call; whenever any decision is a block
the run ends `Blocked` with zero model calls by the protected agent, and
only when no decision blocks is the model invoked (once). -/
theorem input_guardrail_blocks_before_model :
    (∀ (gs : List (String → GuardrailFunctionOutput)) (model : String → String)
        (input : String),
      ((gs.map (fun g => g input)).any (fun d => d.tripwire_triggered) = true →
        run_with_input_guardrails gs model input =
          { status := RunStatus.Blocked, model_calls := 0, final_output := none })
      ∧ ((gs.map (fun g => g input)).any (fun d => d.tripwire_triggered) = false →
        run_with_input_guardrails gs model input =
          { status := RunStatus.Completed, model_calls := 1,
            final_output := some (model input) }))
    ∧ (∀ (classifier : String → OffTopicCheck) (model : String → String)
        (input : String),
      (classifier input).is_off_topic = true →
        (run_with_input_guardrails (study_assistant_input_guardrails classifier)
            model input).status = RunStatus.Blocked
        ∧ (run_with_input_guardrails (study_assistant_input_guardrails classifier)
            model input).model_calls = 0) := by
  constructor
  · intro gs model input
    constructor <;> intro h <;> simp [run_with_input_guardrails, h]
  · intro classifier model input h
    constructor <;>
      simp [run_with_input_guardrails, study_assistant_input_guardrails,
        block_harmful_input, h]

/-- C1 witness: a classifier that flags the input forces a Blocked outcome
with zero model calls for the Study Assistant. -/
theorem input_guardrail_blocks_before_model_witness :
    (run_with_input_guardrails
        (study_assistant_input_guardrails
          (fun _ => { is_off_topic := true, reasoning := "illegal activity" }))
        (fun _ => "unreached") "How do I hack into an email account?").status
      = RunStatus.Blocked
    ∧ (run_with_input_guardrails
        (study_assistant_input_guardrails
          (fun _ => { is_off_topic := true, reasoning := "illegal activity" }))
        (fun _ => "unreached") "How do I hack into an email account?").model_calls = 0 :=
  input_guardrail_blocks_before_model.2
    (fun _ => { is_off_topic := true, reasoning := "illegal activity" })
    (fun _ => "unreached") "How do I hack into an email account?" rfl

/-- C2: the phase decision blocks exactly when some guardrail decision has
its tripwire set (logical OR over the set), and the tripwire of
`block_harmful_input` equals the classifier's `is_off_topic` field, so the
Study Assistant's input phase is blocked exactly on `is_off_topic`. -/
theorem guardrail_or_semantics :
    (∀ decisions : List GuardrailFunctionOutput,
      phase_blocked decisions = true ↔
        ∃ d ∈ decisions, d.tripwire_triggered = true)
    ∧ (∀ decision : OffTopicCheck,
      (block_harmful_input decision).tripwire_triggered = decision.is_off_topic
      ∧ (phase_blocked [block_harmful_input decision] = true ↔
          decision.is_off_topic = true)) := by
  constructor
  · intro decisions
    simp [phase_blocked]
  · intro decision
    refine ⟨rfl, ?_⟩
    simp [phase_blocked, block_harmful_input]

/-- C2 witness: with two guardrail decisions, one allow and one block, the
phase result is blocked. -/
theorem guardrail_or_semantics_witness :
    phase_blocked
      [{ output_info := { is_off_topic := false, reasoning := "fine" },
         tripwire_triggered := false },
       { output_info := { is_off_topic := true, reasoning := "flagged" },
         tripwire_triggered := true }] = true :=
  (guardrail_or_semantics.1 _).mpr
    ⟨{ output_info := { is_off_topic := true, reasoning := "flagged" },
       tripwire_triggered := true }, by simp, rfl⟩

/-- C7: relaying preserves arrival order (the relayed deltas are exactly the
text deltas of the event sequence, in sequence order), and concatenating the
relayed deltas in that order yields exactly the full final content the run
accumulates for validation and output guardrails. -/
theorem streamed_deltas_concat_eq_final :
    (∀ events : List StreamEvent,
      relay_deltas events =
        events.filterMap (fun ev =>
          match ev with
          | StreamEvent.textDelta s => some s
          | StreamEvent.other => none))
    ∧ (∀ events : List StreamEvent,
      String.join (relay_deltas events) = accumulate_content events) := by
  have hjoin : ∀ (l : List String) (s : String),
      List.foldl (fun r t => r ++ t) s l = s ++ String.join l := by
    intro l
    induction l with
    | nil => intro s; simp [String.join]
    | cons t rest ih =>
        intro s
        show List.foldl (fun r t => r ++ t) (s ++ t) rest = s ++ String.join (t :: rest)
        rw [ih]
        show s ++ t ++ String.join rest =
          s ++ List.foldl (fun r t => r ++ t) "" (t :: rest)
        rw [List.foldl_cons, ih, String.append_assoc]
        simp
  have hfold : ∀ (events : List StreamEvent) (acc : String),
      events.foldl
        (fun acc ev =>
          match ev with
          | StreamEvent.textDelta s => acc ++ s
          | StreamEvent.other => acc) acc
        = acc ++ String.join (relay_deltas events) := by
    intro events
    induction events with
    | nil => intro acc; simp [relay_deltas, String.join]
    | cons ev rest ih =>
        intro acc
        cases ev with
        | textDelta s =>
            show List.foldl _ (acc ++ s) rest =
              acc ++ String.join (relay_deltas (StreamEvent.textDelta s :: rest))
            rw [ih]
            show acc ++ s ++ String.join (relay_deltas rest) =
              acc ++ String.join (s :: relay_deltas rest)
            rw [show String.join (s :: relay_deltas rest) =
                List.foldl (fun r t => r ++ t) "" (s :: relay_deltas rest) from rfl,
              List.foldl_cons, hjoin, String.append_assoc]
            simp
        | other => simp [relay_deltas, ih]
  constructor
  · intro events
    induction events with
    | nil => rfl
    | cons ev rest ih =>
        cases ev with
        | textDelta s => simp [relay_deltas, ih]
        | other => simp [relay_deltas, ih]
  · intro events
    have := hfold events ""
    simp [accumulate_content, this]

/-- C5: in the repository's handoff relation every handoff target has an
empty handoff set and is distinct from its source, hence every chain of
handoffs starting from any agent performs at most one handoff and never
returns to an agent already visited — there is no cycle, and the loop
terminates within the depth limit. -/
theorem handoff_relation_acyclic_depth_one :
    (∀ a b : AgentName, handoff_step a b → handoffs b = [] ∧ b ≠ a)
    ∧ (∀ (a : AgentName) (l : List AgentName),
        List.Chain handoff_step a l → l.length ≤ 1 ∧ a ∉ l) := by
  have key : ∀ a b : AgentName, handoff_step a b → handoffs b = [] ∧ b ≠ a := by
    decide
  refine ⟨key, ?_⟩
  intro a l hchain
  cases l with
  | nil => simp
  | cons b rest =>
      cases hchain with
      | cons hab hrest =>
          have hb := key a b hab
          cases rest with
          | nil =>
              refine ⟨by simp, ?_⟩
              simp only [List.mem_singleton]
              exact fun h => hb.2 h.symm
          | cons c rest2 =>
              cases hrest with
              | cons hbc _ =>
                  exfalso
                  have hc : c ∈ handoffs b := hbc
                  rw [hb.1] at hc
                  exact absurd hc (List.not_mem_nil c)

/-- C5 witness: the chain Language Router to Urdu Specialist has length one
and does not return to the router. -/
theorem handoff_relation_acyclic_depth_one_witness :
    [AgentName.urdu_agent].length ≤ 1
    ∧ AgentName.router_agent ∉ [AgentName.urdu_agent] :=
  handoff_relation_acyclic_depth_one.2 AgentName.router_agent [AgentName.urdu_agent]
    (List.Chain.cons (by decide) List.Chain.nil)

/-- C6: `get_weather` looks the city up by its lowercased, stripped form —
any city normalizing to a dictionary key returns that key's fixed report (in
particular "Lahore" returns the Lahore report) — and any other city returns
the not-available message interpolating the original argument. -/
theorem get_weather_lookup :
    (∀ (city : String) (k v : String), (k, v) ∈ fake_weather_data →
        normalize_city city = k → get_weather city = v)
    ∧ (∀ city : String, normalize_city city ∉ fake_weather_data.map Prod.fst →
        get_weather city = "Weather data for '" ++ city ++ "' not available.")
    ∧ get_weather "Lahore" = "☀️  24°C, Sunny, Humidity: 45%" := by
  refine ⟨?_, ?_, by decide⟩
  · intro city k v hmem hkey
    simp only [fake_weather_data, List.mem_cons, List.not_mem_nil, or_false,
      Prod.mk.injEq] at hmem
    rcases hmem with ⟨hk, hv⟩ | ⟨hk, hv⟩ | ⟨hk, hv⟩ | ⟨hk, hv⟩ | ⟨hk, hv⟩ <;>
      subst hk <;> subst hv <;>
      simp [get_weather, dict_get, fake_weather_data, hkey]
  · intro city h
    simp only [fake_weather_data, List.map_cons, List.map_nil, List.mem_cons,
      List.not_mem_nil, or_false, not_or] at h
    obtain ⟨h1, h2, h3, h4, h5⟩ := h
    have e1 : ("karachi" == normalize_city city) = false :=
      beq_eq_false_iff_ne.mpr (Ne.symm h1)
    have e2 : ("lahore" == normalize_city city) = false :=
      beq_eq_false_iff_ne.mpr (Ne.symm h2)
    have e3 : ("islamabad" == normalize_city city) = false :=
      beq_eq_false_iff_ne.mpr (Ne.symm h3)
    have e4 : ("london" == normalize_city city) = false :=
      beq_eq_false_iff_ne.mpr (Ne.symm h4)
    have e5 : ("new york" == normalize_city city) = false :=
      beq_eq_false_iff_ne.mpr (Ne.symm h5)
    simp [get_weather, dict_get, fake_weather_data, List.find?, e1, e2, e3, e4, e5]

/-- C6 witness: "Paris" does not normalize to a dictionary key, and the
result interpolates the original argument. -/
theorem get_weather_lookup_witness :
    get_weather "Paris" = "Weather data for '" ++ "Paris" ++ "' not available." :=
  get_weather_lookup.2.1 "Paris" (by decide)

/-- C8: both tool executables are deterministic — invocations with equal
arguments yield equal results; the embedded tool bodies depend only on
their arguments and on no external or mutable state. -/
theorem tools_deterministic :
    (∀ c₁ c₂ : String, c₁ = c₂ → get_weather c₁ = get_weather c₂)
    ∧ (∀ w₁ h₁ w₂ h₂ : ℚ, w₁ = w₂ → h₁ = h₂ →
        calculate_bmi w₁ h₁ = calculate_bmi w₂ h₂) :=
  ⟨fun _ _ h => by rw [h], fun _ _ _ _ hw hh => by rw [hw, hh]⟩

/-- C8 witness: two invocations of each tool at equal concrete arguments
agree. -/
theorem tools_deterministic_witness :
    get_weather "Lahore" = get_weather "Lahore"
    ∧ calculate_bmi 80 2 = calculate_bmi 80 2 :=
  ⟨tools_deterministic.1 "Lahore" "Lahore" rfl,
   tools_deterministic.2 80 2 80 2 rfl rfl⟩

/-- C10: importing the shared configuration module fails with the
environment error exactly when `GROQ_API_KEY` is unset or empty; otherwise
the import succeeds and installs the Groq client as the default, selects the
`chat_completions` API, and disables tracing. -/
theorem groq_setup_import_behavior :
    (∀ env : String → Option String,
      (∃ e, groq_setup_import env = Except.error e) ↔
        (env "GROQ_API_KEY" = none ∨ env "GROQ_API_KEY" = some ""))
    ∧ (∀ (env : String → Option String) (key : String),
        env "GROQ_API_KEY" = some key → key ≠ "" →
        groq_setup_import env = Except.ok
          { client_api_key := key, client_base_url := GROQ_BASE_URL,
            default_api := "chat_completions", tracing_disabled := true }) := by
  constructor
  · intro env
    cases h : env "GROQ_API_KEY" with
    | none => simp [groq_setup_import, h]
    | some key =>
        by_cases hk : key = ""
        · subst hk
          simp [groq_setup_import, h]
        · simp [groq_setup_import, h, hk]
  · intro env key hkey hne
    simp [groq_setup_import, hkey, hne]

/-- C10 witness: with the key set to a non-empty value the import succeeds
with the chat-completions default and tracing disabled. -/
theorem groq_setup_import_behavior_witness :
    groq_setup_import (fun _ => some "gsk-test") = Except.ok
      { client_api_key := "gsk-test", client_base_url := GROQ_BASE_URL,
        default_api := "chat_completions", tracing_disabled := true } :=
  groq_setup_import_behavior.2 (fun _ => some "gsk-test") "gsk-test" rfl (by decide)

/-- Inversion for a successful `Except` bind. -/
theorem except_bind_ok {ε α β : Type} (x : Except ε α) (f : α → Except ε β) (b : β)
    (h : (x >>= f) = Except.ok b) : ∃ a, x = Except.ok a ∧ f a = Except.ok b := by
  cases x with
  | error e => exact absurd h (by intro hh; exact Except.noConfusion hh)
  | ok a => exact ⟨a, rfl, h⟩

/-- Binding a successful `Except` applies the continuation. -/
theorem ebind_ok {ε α β : Type} (a : α) (f : α → Except ε β) :
    ((Except.ok a : Except ε α) >>= f) = f a := rfl

/-- Binding a failed `Except` keeps the failure. -/
theorem ebind_error {ε α β : Type} (e : ε) (f : α → Except ε β) :
    ((Except.error e : Except ε α) >>= f) = Except.error e := rfl

/-- A successful `require_field` means the field is present and of the right
type. -/
theorem require_field_ok {α : Type} (fields : List (String × Json)) (name : String)
    (conv : Json → Option α) (a : α)
    (h : require_field fields name conv = Except.ok a) :
    ∃ v, jlookup fields name = some v ∧ conv v = some a := by
  unfold require_field at h
  cases hl : jlookup fields name with
  | none =>
      simp only [hl] at h
      exact Except.noConfusion h
  | some v =>
      simp only [hl] at h
      cases hc : conv v with
      | none =>
          simp only [hc] at h
          exact Except.noConfusion h
      | some b =>
          simp only [hc] at h
          cases h
          exact ⟨v, rfl, hc⟩

/-- C3: the structured-output path slices the raw text from the first
opening brace through the last closing brace (keeping the whole text when no
opening brace occurs), and validation of the parsed payload is
all-or-nothing — a success carries every required MovieInfo field, each
present in the payload with the right type. -/
theorem extract_and_validate_movie_info :
    (∀ raw : String, py_find raw lbrace = -1 → extract_json raw = raw)
    ∧ (∀ (raw : String) (i j : Nat),
        raw.data.findIdx? (fun x => x == lbrace) = some i →
        py_rfind raw rbrace = (j : Int) →
        extract_json raw = String.mk ((raw.data.drop i).take (j + 1 - i)))
    ∧ (∀ (fields : List (String × Json)) (raw : String) (m : MovieInfo),
        validate_output raw (some (Json.jobj fields)) = Except.ok m →
        (∃ v, jlookup fields "title" = some v ∧ as_str v = some m.title)
        ∧ (∃ v, jlookup fields "director" = some v ∧ as_str v = some m.director)
        ∧ (∃ v, jlookup fields "year" = some v ∧ as_int v = some m.year)
        ∧ (∃ v, jlookup fields "genre" = some v ∧ as_str_list v = some m.genre)
        ∧ (∃ v, jlookup fields "main_actors" = some v
            ∧ as_str_list v = some m.main_actors)
        ∧ (∃ v, jlookup fields "plot_summary" = some v ∧ as_str v = some m.plot_summary)
        ∧ (∃ v, jlookup fields "rating_out_of_10" = some v
            ∧ as_num v = some m.rating_out_of_10)) := by
  refine ⟨?_, ?_, ?_⟩
  · intro raw hnone
    simp only [extract_json, hnone]
    simp
  · intro raw i j hfirst hlast
    have h1 : ((i : Int)) ≠ -1 := by omega
    have h2 : ((j : Int) + 1) ≠ -1 := by omega
    have e1 : ((i : Int)).toNat = i := by omega
    have e2 : ((j : Int) + 1).toNat = j + 1 := by omega
    simp only [extract_json, py_find, hfirst, hlast]
    rw [if_pos ⟨h1, h2⟩, e1, e2]
    rfl
  · intro fields raw m h
    have hv : model_validate (Json.jobj fields) = Except.ok m := by
      cases hmv : model_validate (Json.jobj fields) with
      | error v =>
          simp only [validate_output, hmv] at h
          exact Except.noConfusion h
      | ok m2 =>
          simp only [validate_output, hmv] at h
          cases h
          rfl
    simp only [model_validate] at hv
    obtain ⟨title, ht, hv⟩ := except_bind_ok _ _ _ hv
    obtain ⟨director, hd, hv⟩ := except_bind_ok _ _ _ hv
    obtain ⟨year, hy, hv⟩ := except_bind_ok _ _ _ hv
    obtain ⟨genre, hg, hv⟩ := except_bind_ok _ _ _ hv
    obtain ⟨actors, ha, hv⟩ := except_bind_ok _ _ _ hv
    obtain ⟨plot, hp, hv⟩ := except_bind_ok _ _ _ hv
    obtain ⟨rating, hr, hv⟩ := except_bind_ok _ _ _ hv
    cases hv
    exact ⟨require_field_ok _ _ _ _ ht, require_field_ok _ _ _ _ hd,
      require_field_ok _ _ _ _ hy, require_field_ok _ _ _ _ hg,
      require_field_ok _ _ _ _ ha, require_field_ok _ _ _ _ hp,
      require_field_ok _ _ _ _ hr⟩

/-- C3 witness: a text without an opening brace is kept whole. -/
theorem extract_and_validate_movie_info_witness :
    extract_json "no braces here" = "no braces here" :=
  extract_and_validate_movie_info.1 "no braces here" (by decide)

/-- C4: a payload missing the required `year` field, a payload whose `year`
has a type pydantic never coerces to `int` (a JSON null), and an unparsable
payload all make validation fail with an `OutputValidationError` carrying
the raw output text and a specific violation; the result is then an error,
never a structured `MovieInfo`.  (A numeric string such as "2010" is not a
type mismatch: lax coercion accepts it, see `as_int`.) -/
theorem output_validation_error_on_bad_payload :
    (∀ (fields : List (String × Json)) (raw : String),
        jlookup fields "year" = none →
        ∃ e : OutputValidationError,
          validate_output raw (some (Json.jobj fields)) = Except.error e
          ∧ e.raw_output = raw)
    ∧ (∀ (fields : List (String × Json)) (raw : String),
        jlookup fields "year" = some Json.jnull →
        ∃ e : OutputValidationError,
          validate_output raw (some (Json.jobj fields)) = Except.error e
          ∧ e.raw_output = raw)
    ∧ (∀ raw : String,
        validate_output raw none =
          Except.error { raw_output := raw, violation := Violation.unparsable }) := by
  have hfail : ∀ (fields : List (String × Json)) (raw : String) (v : Violation),
      model_validate (Json.jobj fields) = Except.error v →
      validate_output raw (some (Json.jobj fields)) =
        Except.error { raw_output := raw, violation := v } := by
    intro fields raw v hv
    simp only [validate_output, hv]
  have herror : ∀ (fields : List (String × Json)) (v : Violation),
      require_field fields "year" as_int = Except.error v →
      ∃ v2, model_validate (Json.jobj fields) = Except.error v2 := by
    intro fields v hy
    simp only [model_validate]
    cases h1 : require_field fields "title" as_str with
    | error e => exact ⟨e, by rw [ebind_error]⟩
    | ok t =>
        rw [ebind_ok]
        cases h2 : require_field fields "director" as_str with
        | error e => exact ⟨e, by rw [ebind_error]⟩
        | ok d =>
            rw [ebind_ok, hy, ebind_error]
            exact ⟨v, rfl⟩
  refine ⟨?_, ?_, ?_⟩
  · intro fields raw hnone
    have hy : require_field fields "year" as_int =
        Except.error (Violation.missingField "year") := by
      simp only [require_field, hnone]
    obtain ⟨v2, hv2⟩ := herror fields _ hy
    exact ⟨{ raw_output := raw, violation := v2 }, hfail fields raw v2 hv2, rfl⟩
  · intro fields raw hnull
    have hy : require_field fields "year" as_int =
        Except.error (Violation.typeMismatch "year") := by
      simp only [require_field, hnull, as_int]
    obtain ⟨v2, hv2⟩ := herror fields _ hy
    exact ⟨{ raw_output := raw, violation := v2 }, hfail fields raw v2 hv2, rfl⟩
  · intro raw
    rfl

/-- C4 witness: the empty JSON object is missing `year`, so validation fails
with an error carrying the raw text. -/
theorem output_validation_error_on_bad_payload_witness :
    ∃ e : OutputValidationError,
      validate_output "not a movie" (some (Json.jobj [])) = Except.error e
      ∧ e.raw_output = "not a movie" :=
  output_validation_error_on_bad_payload.1 [] "not a movie" rfl

/-- A BMI report never coincides with the height error message. -/
theorem bmi_report_ne_error (s : String) :
    ("BMI = " ++ s) ≠ "Error: Height must be greater than zero." := by
  intro heq
  have hl : (("BMI = " ++ s) : String).data.head? = some 'B' := rfl
  have hr : ("Error: Height must be greater than zero." : String).data.head?
      = some 'E' := rfl
  have h2 : some 'B' = some 'E' := by rw [← hl, ← hr, heq]
  exact absurd h2 (by decide)

/-- C9: `calculate_bmi` is total; it returns the height error message
exactly when the height is non-positive (so the division is only reached
with a positive divisor), and for positive height it reports the BMI
rounded to two decimals with the category of the rounded value, where the
four categories are exhaustive and mutually exclusive at the thresholds
18.5, 25 and 30. -/
theorem calculate_bmi_guard_and_categories :
    (∀ w h : ℚ,
      (calculate_bmi w h = "Error: Height must be greater than zero." ↔ h ≤ 0))
    ∧ (∀ w h : ℚ, 0 < h →
        calculate_bmi w h =
          "BMI = " ++ fmt_two_dec (py_round2 (w / h ^ 2)) ++ "  →  " ++
            bmi_category (py_round2 (w / h ^ 2)))
    ∧ (∀ x : ℚ,
        (bmi_category x = "Underweight" ↔ x < 18.5)
        ∧ (bmi_category x = "Normal weight ✅" ↔ 18.5 ≤ x ∧ x < 25)
        ∧ (bmi_category x = "Overweight ⚠️ " ↔ 25 ≤ x ∧ x < 30)
        ∧ (bmi_category x = "Obese ❗" ↔ 30 ≤ x)) := by
  refine ⟨?_, ?_, ?_⟩
  · intro w h
    constructor
    · intro heq
      by_contra hpos
      simp only [calculate_bmi, if_neg hpos] at heq
      rw [String.append_assoc, String.append_assoc] at heq
      exact bmi_report_ne_error _ heq
    · intro hle
      simp [calculate_bmi, hle]
  · intro w h hpos
    have hne : ¬ h ≤ 0 := not_le.mpr hpos
    simp only [calculate_bmi, if_neg hne]
  · intro x
    unfold bmi_category
    split_ifs with h1 h2 h3 <;>
      refine ⟨?_, ?_, ?_, ?_⟩ <;>
      constructor <;>
      intro heq <;>
      first
      | (exfalso; revert heq; decide)
      | constructor <;> linarith
      | linarith

/-- C9 witness: at 80 kg and 2 m the height guard passes and the report
carries the rounded BMI with its category. -/
theorem calculate_bmi_guard_and_categories_witness :
    calculate_bmi 80 2 =
      "BMI = " ++ fmt_two_dec (py_round2 (80 / 2 ^ 2)) ++ "  →  " ++
        bmi_category (py_round2 (80 / 2 ^ 2)) :=
  calculate_bmi_guard_and_categories.2.1 80 2 (by decide)
